import Mathlib

/-!
# Verification of the LDI projection engine

Shallow embedding of the `ldi-model` repository (an LDI — liability-driven
investment — projection engine) and proofs about it.

Conventions of the embedding:

* Python floats are modelled as elements of a linear ordered field `K`
  (instantiated with `ℚ` for concrete evaluations and with `ℝ` where the
  annual-to-monthly rate conversion `(1+a)^(1/12) - 1` is needed).
* A liability/bucket monthly frame is modelled positionally: row `t` of a
  frame with `n` rows corresponds to the `t`-th month-start of the index
  `[valuation_date + 1 month, ..., maturity/end]`, so the `horizon` column of
  row `t` is `n - 1 - t`.
* Pandas timestamps are modelled by `SimpleDate`, a pair of an absolute month
  number (`ym`, counting months from some epoch January) and a day of month;
  the calendar month of an absolute month `m` is `m % 12 + 1`.
* Python exceptions are modelled with `Except`.
* The key `funding_ratio` of the allocator input is embedded under the field
  name `funding_r`.
-/

namespace LDI

section OrderedFieldEngine

variable {K : Type} [LinearOrderedField K]

/-- `clamp` from `src/ldi/engine/allocator.py`:
`def clamp(n, min_n=0, max_n=1): return min(max_n, max(min_n, n))`. -/
def clamp (n min_n max_n : K) : K := min max_n (max min_n n)

/-- The weight map returned by `GlidePath.get_allocation`, with one field per
asset key: `us_equity_total_market`, `intl_equity_developed`,
`us_nominal_treasury_long`, `us_tips_long`. -/
structure Alloc (K : Type) where
  usEquity : K
  intlEquity : K
  usTreasury : K
  usTips : K
deriving DecidableEq

/-- The `inputs` dict of `GlidePath.get_allocation`: the keys
`horizon_months` and `funding_ratio` (the latter embedded as `funding_r`,
with `none` for Python `None`). -/
structure AllocInputs (K : Type) where
  horizon_months : K
  funding_r : Option K
deriving DecidableEq

/-- `GlidePath.FUNDING_HEDGE_WEIGHT = .4`. -/
def FUNDING_HEDGE_WEIGHT : K := 4 / 10

/-- `GlidePath.TIME_HEDGE_WEIGHT = .6`. -/
def TIME_HEDGE_WEIGHT : K := 6 / 10

/-- `GlidePath.get_allocation` from `src/ldi/engine/allocator.py`, lines 22-38.
`clamp` is called with its default bounds `0` and `1`. -/
def get_allocation (inputs : AllocInputs K) : Alloc K :=
  let funding_hedge : K :=
    match inputs.funding_r with
    | some fr => clamp ((fr - 7 / 10) / (1 - 7 / 10)) 0 1
    | none => 0
  let time_hedge : K := clamp (1 - inputs.horizon_months / (12 * 15)) 0 1
  let base_hedge : K := FUNDING_HEDGE_WEIGHT * funding_hedge + TIME_HEDGE_WEIGHT * time_hedge
  { usEquity := 7 / 10 * (1 - base_hedge)
    intlEquity := 3 / 10 * (1 - base_hedge)
    usTreasury := 8 / 10 * base_hedge
    usTips := 2 / 10 * base_hedge }

/-- `BaseBucket._project_balances_and_surpluses` from
`src/ldi/engine/portfolio.py`, lines 137-162.  The input rows are the frame
columns read by the loop, as triples `(pv_remaining, expected_return,
contribution)`; the output is the recorded `(asset_balance, surplus)` row per
month.  The running balance starts at the bucket's `amount`, each month the
surplus `max 0 (A - pv_remaining)` is peeled off when `allow_surplus` holds,
the post-peel balance is recorded, and the balance is rolled forward by
`bal * (1 + expected_return) + contribution`. -/
def project_balances_and_surpluses (allow_surplus : Bool) :
    K → List (K × K × K) → List (K × K)
  | _, [] => []
  | A, row :: rest =>
    let surplus : K := if allow_surplus then max 0 (A - row.1) else 0
    let bal : K := A - surplus
    (bal, surplus) :: project_balances_and_surpluses allow_surplus
      (bal * (1 + row.2.1) + row.2.2) rest

/-- The strategy interface actually consumed by `BaseBucket._build`
(`src/ldi/engine/portfolio.py`, lines 119-135): two per-horizon weight
functions `equity_allocation` and `fixed_income_allocation`, applied to the
`horizon` column only. -/
structure TwoAssetStrategy (K : Type) where
  equity_allocation : K → K
  fixed_income_allocation : K → K

/-- `BaseBucket._build` from `src/ldi/engine/portfolio.py`, lines 119-135.
The frame rows are `(horizon, pv_remaining)` pairs; `infl_m`, `equity_m` and
`bond_m` are the monthly rates (the source derives them from annual rates
with `_to_monthly`).  Returns the pair of the recorded allocation columns
`(equity_allocation, fixed_income_allocation)` and the recorded
`(asset_balance, surplus)` rows.  The allocation columns are computed by
applying the strategy to the `horizon` column; the balance/surplus columns by
the projection loop. -/
def build_bucket (strat : TwoAssetStrategy K) (infl_m equity_m bond_m amount : K)
    (frame : List (K × K)) (contribs : List K) (allow_surplus : Bool) :
    List (K × K) × List (K × K) :=
  let real_equity_m := (1 + equity_m) / (1 + infl_m) - 1
  let real_bond_m := (1 + bond_m) / (1 + infl_m) - 1
  let alloc_cols := frame.map fun x =>
    (strat.equity_allocation x.1, strat.fixed_income_allocation x.1)
  let rows := (frame.zip contribs).map fun xc =>
    (xc.1.2,
      strat.equity_allocation xc.1.1 * real_equity_m
        + strat.fixed_income_allocation xc.1.1 * real_bond_m,
      xc.2)
  (alloc_cols, project_balances_and_surpluses allow_surplus amount rows)

/-- Initial capital of the required bucket for a liability of present value
`pv`, from `LDIModel._generate_required_buckets`
(`src/ldi/engine/model.py`): `min(current_balance, PV) * pv / PV`. -/
def required_initial (B PVt pv : K) : K := min B PVt * pv / PVt

/-- Initial capital of the surplus bucket, from `LDIModel._rebalance_surplus`
(`src/ldi/engine/model.py`): `max(0, current_balance - PV)`. -/
def surplus_initial (B PVt : K) : K := max 0 (B - PVt)

/-- Total liability present value `PV = Σ liability.present_value()`.  A
liability frame is modelled as a nonempty list of projection-input rows
`(pv_remaining, expected_return, contribution)` given as
`(first row, remaining rows)`; `present_value()` is the `pv_remaining` of
the first row. -/
def total_pv (frames : List ((K × K × K) × List (K × K × K))) : K :=
  (frames.map fun f => f.1.1).sum

/-- The `asset_balance` recorded at month 0 of a projection output
(`get_asset_balance_by_period(0)`). -/
def month0_balance (out : List (K × K)) : K := (out.getD 0 (0, 0)).1

/-- The `surplus` recorded at month 0 of a projection output. -/
def month0_surplus (out : List (K × K)) : K := (out.getD 0 (0, 0)).2

/-- `MAX_ITERATIONS = 20` from both solvers in `src/ldi/app/runner.py`. -/
def MAX_ITERATIONS : ℕ := 20

/-- `TOLERANCE = 1000` from both solvers in `src/ldi/app/runner.py`. -/
def TOLERANCE : K := 1000

/-- The shared bisection loop of `_calculate_current_balance_adjustment` and
`_calculate_monthly_contribution_adjustment` (`src/ldi/app/runner.py`).
`F` is the deterministic map from the adjusted quantity (assets today,
respectively the monthly deposit) to the model's `surplus_at_maturity`.
Each iteration computes `middle = (lower + upper) / 2`; if `F middle ≤ 0`
the lower bound moves up, else if `TOLERANCE < F middle` the upper bound
moves down, else the loop breaks.  Returns the last computed `middle`
together with the number of iterations executed. -/
def solverLoop (F : K → K) : ℕ → K → K → K × ℕ
  | 0, lower, upper => ((lower + upper) / 2, 0)
  | n + 1, lower, upper =>
    let middle := (lower + upper) / 2
    if F middle ≤ 0 then
      if n = 0 then (middle, 1)
      else
        let r := solverLoop F n middle upper
        (r.1, r.2 + 1)
    else if TOLERANCE < F middle then
      if n = 0 then (middle, 1)
      else
        let r := solverLoop F n lower middle
        (r.1, r.2 + 1)
    else (middle, 1)

/-- `_calculate_current_balance_adjustment` (`src/ldi/app/runner.py`, lines
80-122), given its bracket `[lower, upper]` and the baseline
`scenario["assets_today"]`: runs the bisection loop for `MAX_ITERATIONS`
iterations and returns `middle - baseline`. -/
def calculateCurrentBalanceAdjustment (F : K → K) (lower upper base : K) : K :=
  (solverLoop F MAX_ITERATIONS lower upper).1 - base

/-- `_calculate_monthly_contribution_adjustment` (`src/ldi/app/runner.py`,
lines 124-171), given its bracket and the baseline
`scenario["deposit"]["monthly"]` (0 when the key was absent): same loop,
returns `middle - baseline`. -/
def calculateMonthlyContributionAdjustment (F : K → K) (lower upper base : K) : K :=
  (solverLoop F MAX_ITERATIONS lower upper).1 - base

end OrderedFieldEngine

/-- A pandas timestamp, as used by the contribution timeline: `ym` is the
absolute month number (months since some epoch January, so the calendar
month is `ym % 12 + 1`) and `day` the day of month (1-based). -/
structure SimpleDate where
  ym : ℕ
  day : ℕ
deriving DecidableEq

/-- Timestamp order (dates within one month are ordered by day). -/
def dateLE (a b : SimpleDate) : Prop :=
  a.ym < b.ym ∨ (a.ym = b.ym ∧ a.day ≤ b.day)

instance (a b : SimpleDate) : Decidable (dateLE a b) :=
  inferInstanceAs (Decidable (a.ym < b.ym ∨ (a.ym = b.ym ∧ a.day ≤ b.day)))

/-- The engine timeline `pd.date_range(start = valuation + 1 month, end =
end_date, freq = "MS")`: the month-start dates of the absolute months
`m0, ..., m1`. -/
def monthStarts (m0 m1 : ℕ) : List SimpleDate :=
  (List.range (m1 + 1 - m0)).map fun i => ⟨m0 + i, 1⟩

/-- Errors raised by `LDIModel._generate_contributions` (all `ValueError` in
the source; the spec files them under `ScheduleMismatch` / `ConfigInvalid`).
`emptyIndex` models the `IndexError` of `date_index[0]` / `date_index[-1]`
on an empty timeline (those defaults are evaluated eagerly by `dict.get`). -/
inductive ContribError where
  | emptyIndex
  | unsupportedFrequency (freq : String)
  | dateNotInTimeline
  | unknownType (ctype : String)
deriving DecidableEq

/-- One entry of the scenario's `contributions` list.  `recurring` carries
`amount`, optional `frequency` (default `"monthly"`), optional
`start_date`/`end_date` and optional `month` (default 1, used by the annual
frequency); `one_time` carries `amount` and `date`; `other` stands for an
entry with an unknown `type` string. -/
inductive ContribConfig (K : Type) where
  | recurring (amount : K) (frequency : Option String)
      (start_date end_date : Option SimpleDate) (month : Option ℕ)
  | one_time (amount : K) (date : SimpleDate)
  | other (ctype : String)
deriving DecidableEq

section Contributions

variable {K : Type} [LinearOrderedField K]

/-- Processing of a single entry of the contributions config by
`LDIModel._generate_contributions` (`src/ldi/engine/model.py`, lines 83-128),
acting on the running series `ts` (a function from absolute month numbers to
amounts; only months `m0..m1` belong to the timeline).

* `recurring`: `start`/`end` default to the first/last timeline date; for
  frequency `monthly` the amount is added to every timeline month-start in
  `[start, end]`; for frequency `annual` additionally the calendar month must
  equal `month`; any other frequency raises.
* `one_time`: the amount is added at the entry's `date`, which must itself be
  a member of the timeline index (`if date not in ts.index: raise`).
* any other `type` raises. -/
def applyContrib (m0 m1 : ℕ) (ts : ℕ → K) :
    ContribConfig K → Except ContribError (ℕ → K)
  | .recurring amount frequency start_date end_date month =>
    match monthStarts m0 m1 with
    | [] => .error .emptyIndex
    | first :: rest =>
      let start := start_date.getD first
      let stop := end_date.getD (rest.getLastD first)
      let freq := frequency.getD "monthly"
      if freq = "monthly" then
        .ok fun m =>
          if m0 ≤ m ∧ m ≤ m1 ∧ dateLE start ⟨m, 1⟩ ∧ dateLE ⟨m, 1⟩ stop then
            ts m + amount
          else ts m
      else if freq = "annual" then
        let mo := month.getD 1
        .ok fun m =>
          if m0 ≤ m ∧ m ≤ m1 ∧ dateLE start ⟨m, 1⟩ ∧ dateLE ⟨m, 1⟩ stop ∧
              m % 12 + 1 = mo then
            ts m + amount
          else ts m
      else .error (.unsupportedFrequency freq)
  | .one_time amount date =>
    if date ∈ monthStarts m0 m1 then
      .ok fun m => if m = date.ym then ts m + amount else ts m
    else .error .dateNotInTimeline
  | .other ctype => .error (.unknownType ctype)

/-- `LDIModel._generate_contributions`: the zero series over the timeline
`m0..m1`, folded over the configured entries. -/
def generateContributions (m0 m1 : ℕ) (cfgs : List (ContribConfig K)) :
    Except ContribError (ℕ → K) :=
  cfgs.foldlM (fun ts c => applyContrib m0 m1 ts c) fun _ => 0

end Contributions

/-- Errors raised by `LDIModel._validate_parameters`
(`src/ldi/engine/model.py`, lines 32-38); both are `ValueError` in the
source, filed by the spec under `ConfigInvalid`. -/
inductive ModelError where
  | missingField (key : String)
  | endDateRequired
deriving DecidableEq

/-- One entry of the scenario's `liabilities` list (only the fields read by
`LDIModel._generate_liabilities`). -/
structure LiabConfig (K : Type) where
  ltype : String
  start_date : SimpleDate
  amount_today : K
  duration_years : Option ℕ
deriving DecidableEq

/-- The scenario dict as read by `LDIModel.__init__`: each field is `none`
when the corresponding key is absent. -/
structure ScenarioInput (K : Type) where
  assets_today : Option K
  liabilities : Option (List (LiabConfig K))
  end_date : Option SimpleDate
deriving DecidableEq

/-- The field values a constructed model starts from (`LDIModel.__init__`,
`src/ldi/engine/model.py`, lines 13-30). -/
structure ModelFields (K : Type) where
  current_balance : K
  liabilities_config : List (LiabConfig K)
  end_date : Option SimpleDate
deriving DecidableEq

section ModelInit

variable {K : Type} [LinearOrderedField K]

/-- `LDIModel._validate_parameters` (`src/ldi/engine/model.py`, lines 32-38):
raise when `assets_today` is absent, or when both `liabilities` and
`end_date` are absent. -/
def validate_parameters (s : ScenarioInput K) : Except ModelError Unit :=
  if s.assets_today.isNone then .error (.missingField "assets_today")
  else if s.liabilities.isNone ∧ s.end_date.isNone then .error .endDateRequired
  else .ok ()

/-- The attribute assignments of `LDIModel.__init__` (`src/ldi/engine/model.py`,
lines 13-30): every scenario field is read with `scenario.get(...)` and a
default (`0` for `assets_today`, `[]` for `liabilities`), and
`_validate_parameters` is never invoked, so this function is total. -/
def model_init_fields (s : ScenarioInput K) : ModelFields K :=
  { current_balance := s.assets_today.getD 0
    liabilities_config := s.liabilities.getD []
    end_date := s.end_date }

/-- `Except.isOk` as a plain definition. -/
def exceptIsOk {ε α : Type} : Except ε α → Bool
  | .ok _ => true
  | .error _ => false

/-- The model pipeline (`LDIModel._run`) specialised to a scenario with an
empty `liabilities` list and an explicit `end_date`:

* `_generate_contributions` builds the contribution series over the timeline
  `m0..m1` (and can raise); the series is consumed only by
  `_generate_required_buckets`, whose loop body never executes here;
* `_rebalance_surplus` takes `contributions = 0` because there are no
  required buckets, and the surplus bucket starts with
  `max(0, current_balance - PV)` with `PV = 0`;
* the surplus bucket's projection is run with `pv_remaining = 0` and zero
  contributions; its `expected_return` column is passed in as
  `surplus_returns` (the source computes it from the strategy `EquityOnly`,
  which is referenced by `src/ldi/engine/portfolio.py` but missing from the
  sources, so the column is kept as a parameter — the claims proved here hold
  for every such column);
* `_calculate_funded_status` returns the terminal surplus balance when
  positive, else minus the (empty) shortfall sum;
* `_calculate_current_asset_allocations` with `current_balance ≠ 0` weights
  the month-0 allocations of all buckets by their month-0 balances — here
  only the surplus bucket, whose month-0 allocation is the parameter
  `alloc0` — and with `current_balance = 0` iterates over the (empty) list of
  required buckets, producing the empty map (`none`).  Division by zero in
  `K` is total (`x / 0 = 0`), where Python would raise. -/
def run_no_liabilities (B : K) (cfgs : List (ContribConfig K)) (m0 m1 : ℕ)
    (surplus_returns : List K) (alloc0 : Alloc K) :
    Except ContribError (K × Option (Alloc K)) :=
  (generateContributions m0 m1 cfgs).map fun _ts =>
    let out := project_balances_and_surpluses false (max 0 (B - 0))
      (surplus_returns.map fun r => ((0 : K), r, (0 : K)))
    let S := (out.map Prod.fst).getLastD 0
    let funded := if 0 < S then S else -(0 : K)
    let w := (out.map Prod.fst).getD 0 0
    (funded,
      if B = 0 then none
      else some
        { usEquity := alloc0.usEquity * w / w
          intlEquity := alloc0.intlEquity * w / w
          usTreasury := alloc0.usTreasury * w / w
          usTips := alloc0.usTips * w / w })

end ModelInit

/-- `Liability._to_monthly` (`src/ldi/engine/portfolio.py`):
`(1 + annual_rate) ** (1/12) - 1`. -/
noncomputable def to_monthly (annual_rate : ℝ) : ℝ :=
  (1 + annual_rate) ^ ((1 : ℝ) / 12) - 1

/-- The constant `real_disc` of `Liability._build`
(`src/ldi/engine/portfolio.py`, lines 26-49):
`(1 + infl_m) / (1 + disc_m) - 1` on the monthly rates. -/
noncomputable def real_disc (inflation_rate discount_rate : ℝ) : ℝ :=
  (1 + to_monthly inflation_rate) / (1 + to_monthly discount_rate) - 1

/-- The `horizon` column of a liability frame with `n` monthly rows (the
index runs from `valuation_date + 1 month` to `maturity_date`, so row `t`
is `n - 1 - t` months before maturity). -/
def liability_horizon (n t : ℕ) : ℕ := n - 1 - t

/-- The `pv_remaining` column of `Liability._build`
(`src/ldi/engine/portfolio.py`, lines 26-49): row `t` of an `n`-row frame
holds `amount * (1 + real_disc) ** horizon`. -/
noncomputable def liability_pv (amount inflation_rate discount_rate : ℝ) (n t : ℕ) : ℝ :=
  amount * (1 + real_disc inflation_rate discount_rate) ^ liability_horizon n t

/-- The formula claimed by the spec for `pv_remaining` at row `t`: the
amount multiplied by the cumulative product of `(1 + r_real)` over the index
rows strictly after `t` through maturity (rows `t+1, ..., n-1`), **with the
maturity-row factor replaced by 1**. -/
noncomputable def pv_spec_claim (amount inflation_rate discount_rate : ℝ) (n t : ℕ) : ℝ :=
  amount * ∏ s ∈ Finset.Ico (t + 1) n,
    (if s = n - 1 then 1 else 1 + real_disc inflation_rate discount_rate)

/-- The amended formula: the amount multiplied by the cumulative product of
`(1 + r_real)` over all index rows strictly after `t` through maturity,
including the maturity-row factor. -/
noncomputable def pv_spec_amended (amount inflation_rate discount_rate : ℝ) (n t : ℕ) : ℝ :=
  amount * ∏ _s ∈ Finset.Ico (t + 1) n,
    (1 + real_disc inflation_rate discount_rate)

/-! ## Helper lemmas -/

section Lemmas

variable {K : Type} [LinearOrderedField K]

theorem clamp_nonneg (x lo hi : K) (hlo : 0 ≤ lo) (hhi : 0 ≤ hi) : 0 ≤ clamp x lo hi :=
  le_min hhi (le_trans hlo (le_max_left lo x))

theorem clamp_le (x lo hi : K) : clamp x lo hi ≤ hi :=
  min_le_left hi (max lo x)

theorem project_cons (b : Bool) (A : K) (x : K × K × K) (rest : List (K × K × K)) :
    project_balances_and_surpluses b A (x :: rest) =
      (A - (if b then max 0 (A - x.1) else 0), if b then max 0 (A - x.1) else 0) ::
        project_balances_and_surpluses b
          ((A - (if b then max 0 (A - x.1) else 0)) * (1 + x.2.1) + x.2.2) rest := by
  simp [project_balances_and_surpluses]

theorem project_cons_true (A : K) (x : K × K × K) (rest : List (K × K × K)) :
    project_balances_and_surpluses true A (x :: rest) =
      (A - max 0 (A - x.1), max 0 (A - x.1)) ::
        project_balances_and_surpluses true
          ((A - max 0 (A - x.1)) * (1 + x.2.1) + x.2.2) rest := by
  rw [project_cons]
  simp

theorem project_cons_false (A : K) (x : K × K × K) (rest : List (K × K × K)) :
    project_balances_and_surpluses false A (x :: rest) =
      (A, 0) :: project_balances_and_surpluses false (A * (1 + x.2.1) + x.2.2) rest := by
  rw [project_cons]
  simp

theorem list_sum_map_congr {α : Type} (l : List α) (f g : α → K)
    (h : ∀ a ∈ l, f a = g a) : (l.map f).sum = (l.map g).sum := by
  induction l with
  | nil => rfl
  | cons a l ih =>
    simp only [List.map_cons, List.sum_cons]
    rw [h a (List.mem_cons_self a l), ih fun x hx => h x (List.mem_cons_of_mem a hx)]

theorem required_sum_aux (B PVt : K) (hPVt : PVt ≠ 0) (l : List K) :
    (l.map fun pv => min B PVt * pv / PVt).sum = min B PVt * l.sum / PVt := by
  induction l with
  | nil => simp
  | cons a l ih =>
    simp only [List.map_cons, List.sum_cons, ih]
    field_simp
    ring

theorem solverLoop_succ_eq (F : K → K) (n : ℕ) (lower upper : K) :
    solverLoop F (n + 1) lower upper =
      if F ((lower + upper) / 2) ≤ 0 then
        if n = 0 then ((lower + upper) / 2, 1)
        else ((solverLoop F n ((lower + upper) / 2) upper).1,
          (solverLoop F n ((lower + upper) / 2) upper).2 + 1)
      else if TOLERANCE < F ((lower + upper) / 2) then
        if n = 0 then ((lower + upper) / 2, 1)
        else ((solverLoop F n lower ((lower + upper) / 2)).1,
          (solverLoop F n lower ((lower + upper) / 2)).2 + 1)
      else ((lower + upper) / 2, 1) := by
  rw [solverLoop]

theorem solverLoop_spec (F : K → K) :
    ∀ n : ℕ, ∀ lower upper : K,
      1 ≤ (solverLoop F (n + 1) lower upper).2 ∧
      (solverLoop F (n + 1) lower upper).2 ≤ n + 1 ∧
      ((solverLoop F (n + 1) lower upper).2 < n + 1 →
        0 < F (solverLoop F (n + 1) lower upper).1 ∧
        F (solverLoop F (n + 1) lower upper).1 ≤ TOLERANCE) := by
  intro n
  induction n with
  | zero =>
    intro lower upper
    rw [solverLoop_succ_eq]
    have h0 : (0 : ℕ) = 0 := rfl
    by_cases h1 : F ((lower + upper) / 2) ≤ 0
    · rw [if_pos h1, if_pos h0]
      simp
    · rw [if_neg h1]
      by_cases h2 : TOLERANCE < F ((lower + upper) / 2)
      · rw [if_pos h2, if_pos h0]
        simp
      · rw [if_neg h2]
        push_neg at h1 h2
        exact ⟨le_refl 1, le_refl 1, fun hlt => absurd hlt (by omega)⟩
  | succ n ih =>
    intro lower upper
    rw [solverLoop_succ_eq]
    have hne : ¬ (n + 1 = 0) := Nat.succ_ne_zero n
    by_cases h1 : F ((lower + upper) / 2) ≤ 0
    · rw [if_pos h1, if_neg hne]
      obtain ⟨ia, ib, ic⟩ := ih ((lower + upper) / 2) upper
      dsimp only
      exact ⟨by omega, by omega, fun hlt => ic (by omega)⟩
    · rw [if_neg h1]
      by_cases h2 : TOLERANCE < F ((lower + upper) / 2)
      · rw [if_pos h2, if_neg hne]
        obtain ⟨ia, ib, ic⟩ := ih lower ((lower + upper) / 2)
        dsimp only
        exact ⟨by omega, by omega, fun hlt => ic (by omega)⟩
      · rw [if_neg h2]
        push_neg at h1 h2
        exact ⟨le_refl 1, by omega, fun _ => ⟨h1, h2⟩⟩

end Lemmas

theorem mem_monthStarts (m0 m1 : ℕ) (d : SimpleDate) :
    d ∈ monthStarts m0 m1 ↔ d.day = 1 ∧ m0 ≤ d.ym ∧ d.ym ≤ m1 := by
  unfold monthStarts
  simp only [List.mem_map, List.mem_range]
  constructor
  · rintro ⟨i, hi, rfl⟩
    refine ⟨rfl, Nat.le_add_right m0 i, ?_⟩
    show m0 + i ≤ m1
    omega
  · rintro ⟨hd, h0, h1⟩
    obtain ⟨ym, day⟩ := d
    simp only at hd h0 h1
    subst hd
    refine ⟨ym - m0, by omega, ?_⟩
    have h2 : m0 + (ym - m0) = ym := by omega
    simp [h2]

theorem to_monthly_zero : to_monthly 0 = 0 := by
  unfold to_monthly
  rw [add_zero, Real.one_rpow, sub_self]

theorem to_monthly_4095 : to_monthly 4095 = 1 := by
  unfold to_monthly
  have h1 : (1 : ℝ) + 4095 = (2 : ℝ) ^ ((12 : ℕ) : ℝ) := by
    rw [Real.rpow_natCast]
    norm_num
  rw [h1, ← Real.rpow_mul (by norm_num : (0 : ℝ) ≤ 2),
    show ((12 : ℕ) : ℝ) * ((1 : ℝ) / 12) = 1 by norm_num, Real.rpow_one]
  norm_num

theorem real_disc_one : real_disc 4095 0 = 1 := by
  unfold real_disc
  rw [to_monthly_4095, to_monthly_zero]
  norm_num

/-! ## Claims -/

section ClaimsOrderedField

variable {K : Type} [LinearOrderedField K]

/-- C7: for every allocator input (any `horizon_months` value in the field,
any `funding_ratio` value or `none`), every weight of the `GlidePath`
allocation is nonnegative, and the four weights sum to exactly 1 (hence
within `1e-9`): the hedge is a convex combination of two values clamped to
`[0, 1]`. -/
theorem C7_glidepath_weights (inputs : AllocInputs K) :
    0 ≤ (get_allocation inputs).usEquity ∧
    0 ≤ (get_allocation inputs).intlEquity ∧
    0 ≤ (get_allocation inputs).usTreasury ∧
    0 ≤ (get_allocation inputs).usTips ∧
    (get_allocation inputs).usEquity + (get_allocation inputs).intlEquity +
      (get_allocation inputs).usTreasury + (get_allocation inputs).usTips = 1 := by
  obtain ⟨hm, fr⟩ := inputs
  cases fr with
  | none =>
    simp only [get_allocation, FUNDING_HEDGE_WEIGHT, TIME_HEDGE_WEIGHT]
    have h1 : 0 ≤ clamp (1 - hm / (12 * 15)) 0 1 :=
      clamp_nonneg _ _ _ le_rfl zero_le_one
    have h2 : clamp (1 - hm / (12 * 15)) 0 1 ≤ 1 := clamp_le _ _ _
    refine ⟨by linarith, by linarith, by linarith, by linarith, by ring⟩
  | some v =>
    simp only [get_allocation, FUNDING_HEDGE_WEIGHT, TIME_HEDGE_WEIGHT]
    have h1 : 0 ≤ clamp (1 - hm / (12 * 15)) 0 1 :=
      clamp_nonneg _ _ _ le_rfl zero_le_one
    have h2 : clamp (1 - hm / (12 * 15)) 0 1 ≤ 1 := clamp_le _ _ _
    have h3 : 0 ≤ clamp ((v - 7 / 10) / (1 - 7 / 10)) 0 1 :=
      clamp_nonneg _ _ _ le_rfl zero_le_one
    have h4 : clamp ((v - 7 / 10) / (1 - 7 / 10)) 0 1 ≤ 1 := clamp_le _ _ _
    refine ⟨by linarith, by linarith, by linarith, by linarith, by ring⟩

/-- C5: in a projection with `allow_surplus = true` (every `RequiredBucket`),
for every initial amount, row inputs and row index, the recorded
`asset_balance` is at most `pv_remaining` (hence at most
`pv_remaining + 1e-9`): the peel records `min(running balance, pv_remaining)`. -/
theorem C5_required_bucket_ceiling (A0 : K) (rows : List (K × K × K)) (t : ℕ)
    (ht : t < rows.length) :
    ((project_balances_and_surpluses true A0 rows).getD t (0, 0)).1 ≤
      (rows.getD t (0, 0, 0)).1 ∧
    ((project_balances_and_surpluses true A0 rows).getD t (0, 0)).1 ≤
      (rows.getD t (0, 0, 0)).1 + 1 / 1000000000 := by
  induction rows generalizing A0 t with
  | nil => simp at ht
  | cons x rest ih =>
    cases t with
    | zero =>
      rw [project_cons_true]
      simp only [List.getD_cons_zero]
      have hmax : A0 - x.1 ≤ max 0 (A0 - x.1) := le_max_right 0 (A0 - x.1)
      have hpos : (0 : K) ≤ 1 / 1000000000 := by positivity
      constructor <;> dsimp only <;> linarith
    | succ t =>
      rw [project_cons_true]
      simp only [List.getD_cons_succ]
      exact ih _ _ (by simpa using ht)

/-- C6 counterexample: the per-claim recurrence
`asset_balance_{t+1} = (asset_balance_t - surplus_t)*(1+return_t) + contribution_t`
fails on a concrete required-bucket projection.  Take amount 3 and rows
`(pv, return, contribution) = (1,0,0), (10,0,0)`: month 0 peels surplus 2
and records balance 1, month 1 records balance 1, but the claimed formula
gives `(1 - 2)*(1+0) + 0 = -1`. -/
theorem C6_counterexample :
    ((project_balances_and_surpluses true (3 : ℚ) [(1, 0, 0), (10, 0, 0)]).getD 1 (0, 0)).1 ≠
      (((project_balances_and_surpluses true (3 : ℚ) [(1, 0, 0), (10, 0, 0)]).getD 0 (0, 0)).1 -
        ((project_balances_and_surpluses true (3 : ℚ) [(1, 0, 0), (10, 0, 0)]).getD 0 (0, 0)).2) *
        (1 + (([(1, 0, 0), (10, 0, 0)] : List (ℚ × ℚ × ℚ)).getD 0 (0, 0, 0)).2.1) +
        (([(1, 0, 0), (10, 0, 0)] : List (ℚ × ℚ × ℚ)).getD 0 (0, 0, 0)).2.2 := by
  have hp : project_balances_and_surpluses true (3 : ℚ) [(1, 0, 0), (10, 0, 0)] =
      [(1, 2), (1, 0)] := by
    rw [project_cons_true, project_cons_true]
    norm_num [project_balances_and_surpluses, max_def]
  simp only [hp]
  norm_num [List.getD_cons_zero, List.getD_cons_succ]

/-- C6 (amended): in every bucket projection, consecutive recorded rows
satisfy
`asset_balance_{t+1} = asset_balance_t * (1 + return_t) + contribution_t - surplus_{t+1}`:
the recorded balance is already net of the month's own peel, so the previous
row's surplus must not be subtracted again, and the next row's peel must be. -/
theorem C6_roll_forward (b : Bool) (A0 : K) (rows : List (K × K × K)) (t : ℕ)
    (ht : t + 1 < rows.length) :
    ((project_balances_and_surpluses b A0 rows).getD (t + 1) (0, 0)).1 =
      ((project_balances_and_surpluses b A0 rows).getD t (0, 0)).1 *
        (1 + (rows.getD t (0, 0, 0)).2.1) + (rows.getD t (0, 0, 0)).2.2 -
        ((project_balances_and_surpluses b A0 rows).getD (t + 1) (0, 0)).2 := by
  induction rows generalizing A0 t with
  | nil => simp at ht
  | cons x rest ih =>
    cases t with
    | zero =>
      cases rest with
      | nil => simp at ht
      | cons y rest2 =>
        cases b with
        | false =>
          rw [project_cons_false, project_cons_false]
          simp only [List.getD_cons_zero, List.getD_cons_succ]
          ring
        | true =>
          rw [project_cons_true, project_cons_true]
          simp only [List.getD_cons_zero, List.getD_cons_succ]
    | succ t =>
      cases b with
      | false =>
        rw [project_cons_false]
        simp only [List.getD_cons_succ]
        exact ih _ _ (by simpa using ht)
      | true =>
        rw [project_cons_true]
        simp only [List.getD_cons_succ]
        exact ih _ _ (by simpa using ht)

/-- C3: month-0 capital conservation.  For a nonnegative `current_balance`,
nonnegative liability present values with positive total `PV`, required
buckets seeded with `min(current_balance, PV) * pv_k / PV` and the surplus
bucket seeded with `max(0, current_balance - PV)`, the month-0 recorded
balances sum exactly to `current_balance` (so in particular within `1e-6`),
and no required bucket peels surplus at month 0 (each starts at or below its
liability's present value). -/
theorem C3_capital_conservation (B : K)
    (frames : List ((K × K × K) × List (K × K × K)))
    (sfirst : K × K × K) (srest : List (K × K × K))
    (hB : 0 ≤ B) (hpv : ∀ f ∈ frames, 0 ≤ f.1.1) (hPV : 0 < total_pv frames) :
    (frames.map fun f =>
        month0_balance (project_balances_and_surpluses true
          (required_initial B (total_pv frames) f.1.1) (f.1 :: f.2))).sum
      + month0_balance (project_balances_and_surpluses false
          (surplus_initial B (total_pv frames)) (sfirst :: srest)) = B
    ∧ ∀ f ∈ frames,
        month0_surplus (project_balances_and_surpluses true
          (required_initial B (total_pv frames) f.1.1) (f.1 :: f.2)) = 0 := by
  set PVt := total_pv frames with hPVt_def
  have hPVne : PVt ≠ 0 := ne_of_gt hPV
  have key : ∀ f ∈ frames,
      month0_balance (project_balances_and_surpluses true
        (required_initial B PVt f.1.1) (f.1 :: f.2)) = required_initial B PVt f.1.1 ∧
      month0_surplus (project_balances_and_surpluses true
        (required_initial B PVt f.1.1) (f.1 :: f.2)) = 0 := by
    intro f hf
    have hple : required_initial B PVt f.1.1 ≤ f.1.1 := by
      unfold required_initial
      have h1 : min B PVt * f.1.1 ≤ PVt * f.1.1 :=
        mul_le_mul_of_nonneg_right (min_le_right B PVt) (hpv f hf)
      have h2 : min B PVt * f.1.1 / PVt ≤ PVt * f.1.1 / PVt :=
        (div_le_div_iff_of_pos_right hPV).mpr h1
      have h3 : PVt * f.1.1 / PVt = f.1.1 := mul_div_cancel_left₀ f.1.1 hPVne
      linarith
    have hmax : max 0 (required_initial B PVt f.1.1 - f.1.1) = 0 :=
      max_eq_left (by linarith)
    rw [project_cons_true]
    unfold month0_balance month0_surplus
    simp [hmax]
  constructor
  · have h1 : (frames.map fun f =>
        month0_balance (project_balances_and_surpluses true
          (required_initial B PVt f.1.1) (f.1 :: f.2))).sum
        = (frames.map fun f => required_initial B PVt f.1.1).sum :=
      list_sum_map_congr _ _ _ fun f hf => (key f hf).1
    have h2 : (frames.map fun f => required_initial B PVt f.1.1)
        = (frames.map fun f => f.1.1).map fun pv => min B PVt * pv / PVt := by
      rw [List.map_map]
      rfl
    have h3 : ((frames.map fun f => f.1.1).map fun pv => min B PVt * pv / PVt).sum
        = min B PVt * PVt / PVt := by
      rw [required_sum_aux B PVt hPVne,
        show (frames.map fun f => f.1.1).sum = PVt from hPVt_def.symm]
    have h4 : min B PVt * PVt / PVt = min B PVt := by
      rw [mul_div_assoc, div_self hPVne, mul_one]
    have h5 : month0_balance (project_balances_and_surpluses false
        (surplus_initial B PVt) (sfirst :: srest)) = surplus_initial B PVt := by
      rw [project_cons_false]
      unfold month0_balance
      simp
    rw [h1, h2, h3, h4, h5]
    unfold surplus_initial
    rcases le_total B PVt with h | h
    · rw [min_eq_left h, max_eq_left (by linarith)]
      ring
    · rw [min_eq_right h, max_eq_right (by linarith)]
      ring
  · intro f hf
    exact (key f hf).2

/-- C4 counterexample: the solvers' constants are `MAX_ITERATIONS = 20` and
`TOLERANCE = 1000`, not 40 and 100, and the loop declares convergence not at
`|funded_status| ≤ 100` but at `0 < funded_status ≤ 1000`: with a model map
that is constantly 500 and bracket `[0, 100]`, the loop stops at its very
first midpoint 50 although the funded status 500 exceeds 100 in absolute
value. -/
theorem C4_counterexample :
    MAX_ITERATIONS ≠ 40 ∧ (TOLERANCE : ℚ) ≠ 100 ∧
    solverLoop (fun _ => (500 : ℚ)) MAX_ITERATIONS 0 100 = (50, 1) ∧
    ¬ ((500 : ℚ) ≤ 100) := by
  refine ⟨by decide, by norm_num [TOLERANCE], ?_, by norm_num⟩
  rw [show MAX_ITERATIONS = 19 + 1 from rfl, solverLoop_succ_eq]
  norm_num [TOLERANCE]

/-- C4 (amended): both solvers run at most `MAX_ITERATIONS = 20` bisection
iterations; whenever the loop stops early, the midpoint it returns has model
surplus strictly between 0 (exclusive) and `TOLERANCE = 1000` (inclusive);
and each solver returns the final midpoint minus its baseline value. -/
theorem C4_solver_behaviour (F : K → K) (lower upper base : K)
    (h : (solverLoop F MAX_ITERATIONS lower upper).2 < MAX_ITERATIONS) :
    MAX_ITERATIONS = 20 ∧ (TOLERANCE : K) = 1000 ∧
    1 ≤ (solverLoop F MAX_ITERATIONS lower upper).2 ∧
    (solverLoop F MAX_ITERATIONS lower upper).2 ≤ MAX_ITERATIONS ∧
    0 < F (solverLoop F MAX_ITERATIONS lower upper).1 ∧
    F (solverLoop F MAX_ITERATIONS lower upper).1 ≤ TOLERANCE ∧
    calculateCurrentBalanceAdjustment F lower upper base =
      (solverLoop F MAX_ITERATIONS lower upper).1 - base ∧
    calculateMonthlyContributionAdjustment F lower upper base =
      (solverLoop F MAX_ITERATIONS lower upper).1 - base := by
  obtain ⟨h1, h2, h3⟩ := solverLoop_spec F 19 lower upper
  have hM : MAX_ITERATIONS = 19 + 1 := rfl
  rw [hM] at h ⊢
  obtain ⟨hc1, hc2⟩ := h3 h
  exact ⟨rfl, rfl, h1, h2, hc1, hc2, rfl, rfl⟩

/-- C1: in the shipped `BaseBucket._build`, the recorded allocation columns
are computed by applying the strategy's `equity_allocation` /
`fixed_income_allocation` to the `horizon` column only: they are identical
for any two initial amounts (so for any two wealth paths), and never see a
funding ratio — contradicting the claim that each month's allocation is
`GlidePath.get_allocation` of the horizon and the running funding ratio. -/
theorem C1_allocation_ignores_wealth (strat : TwoAssetStrategy K)
    (infl_m equity_m bond_m : K) (A A' : K) (frame : List (K × K))
    (contribs : List K) (b : Bool) :
    (build_bucket strat infl_m equity_m bond_m A frame contribs b).1 =
      (build_bucket strat infl_m equity_m bond_m A' frame contribs b).1 ∧
    (build_bucket strat infl_m equity_m bond_m A frame contribs b).1 =
      frame.map fun x =>
        (strat.equity_allocation x.1, strat.fixed_income_allocation x.1) :=
  ⟨rfl, rfl⟩

/-- C8: `LDIModel.__init__` never calls `_validate_parameters`; a scenario
without `assets_today` is accepted and construction proceeds with
`current_balance = 0` (the `.get` default), even though the validator — and
the repository's own test `test_scenario_missing_key_raises` — would reject
exactly this scenario. -/
theorem C8_init_skips_validation :
    (model_init_fields (K := ℚ)
      ⟨none, some [⟨"one_time", ⟨120, 1⟩, 1000, none⟩], none⟩).current_balance = 0 ∧
    validate_parameters (K := ℚ)
      ⟨none, some [⟨"one_time", ⟨120, 1⟩, 1000, none⟩], none⟩ =
      Except.error (ModelError.missingField "assets_today") :=
  ⟨rfl, rfl⟩

/-- C9 (amended): `_generate_contributions` credits a `one_time` entry to
the timeline entry whose date equals the entry's date exactly: it succeeds
and adds the amount at the date's month if and only if the date is itself a
month-start (`day = 1`) of a timeline month; any other date — in particular
a mid-month date whose month lies inside the timeline — raises. -/
theorem C9_one_time_exact_date_only (m0 m1 : ℕ) (ts : ℕ → K) (d : SimpleDate) (a : K) :
    applyContrib m0 m1 ts (ContribConfig.one_time a d) =
      if d.day = 1 ∧ m0 ≤ d.ym ∧ d.ym ≤ m1 then
        Except.ok fun m => if m = d.ym then ts m + a else ts m
      else Except.error ContribError.dateNotInTimeline := by
  simp only [applyContrib]
  by_cases h : d ∈ monthStarts m0 m1
  · rw [if_pos h, if_pos ((mem_monthStarts m0 m1 d).mp h)]
  · rw [if_neg h, if_neg fun hc => h ((mem_monthStarts m0 m1 d).mpr hc)]

/-- C10: with an empty liabilities list the contribution series is built and
then dropped — the required-bucket loop never runs and the surplus bucket is
fed `contributions = 0` — so any two well-formed contributions configs give
identical results (funded status and allocations alike). -/
theorem C10_no_liabilities_ignore_contributions (B : K) (m0 m1 : ℕ)
    (surplus_returns : List K) (alloc0 : Alloc K)
    (cfgs1 cfgs2 : List (ContribConfig K))
    (h1 : exceptIsOk (generateContributions m0 m1 cfgs1) = true)
    (h2 : exceptIsOk (generateContributions m0 m1 cfgs2) = true) :
    run_no_liabilities B cfgs1 m0 m1 surplus_returns alloc0 =
      run_no_liabilities B cfgs2 m0 m1 surplus_returns alloc0 := by
  unfold run_no_liabilities
  cases hg1 : generateContributions m0 m1 cfgs1 with
  | error e =>
    rw [hg1] at h1
    simp [exceptIsOk] at h1
  | ok t1 =>
    cases hg2 : generateContributions m0 m1 cfgs2 with
    | error e =>
      rw [hg2] at h2
      simp [exceptIsOk] at h2
    | ok t2 => rfl

end ClaimsOrderedField

/-- C9 counterexample: the timeline covering months 0..11 contains month 3,
yet a one-time contribution dated on day 15 of month 3 raises instead of
being credited to that month — refuting "fails exactly when the month is
outside the timeline". -/
theorem C9_counterexample :
    applyContrib 0 11 (fun _ => (0 : ℚ)) (ContribConfig.one_time 100 ⟨3, 15⟩) =
      Except.error ContribError.dateNotInTimeline ∧ (0 : ℕ) ≤ 3 ∧ (3 : ℕ) ≤ 11 := by
  have h : (⟨3, 15⟩ : SimpleDate) ∉ monthStarts 0 11 := by decide
  refine ⟨?_, by omega, by omega⟩
  simp only [applyContrib]
  rw [if_neg h]

/-- C10 witness: two concrete configs — the empty one and one with a single
well-formed one-time contribution — produce the same no-liability result. -/
theorem C10_witness :
    run_no_liabilities (1 : ℚ) [] 0 3 [1 / 2] ⟨1, 0, 0, 0⟩ =
      run_no_liabilities (1 : ℚ) [ContribConfig.one_time 5 ⟨1, 1⟩] 0 3 [1 / 2] ⟨1, 0, 0, 0⟩ :=
  C10_no_liabilities_ignore_contributions 1 0 3 [1 / 2] ⟨1, 0, 0, 0⟩ []
    [ContribConfig.one_time 5 ⟨1, 1⟩] (by decide) (by decide)

/-- C2 counterexample: with liability amount 1, annual inflation 4095
(monthly rate 1) and annual discount 0 (monthly rate 0), `real_disc = 1`; on
the two-row frame the code records `pv_remaining = 2` at the first row
(horizon 1), while the spec's product with the maturity-row factor replaced
by 1 yields 1. -/
theorem C2_counterexample :
    liability_pv 1 4095 0 2 0 ≠ pv_spec_claim 1 4095 0 2 0 := by
  unfold liability_pv pv_spec_claim liability_horizon
  simp only [real_disc_one]
  have hI : Finset.Ico (0 + 1) 2 = {1} := rfl
  rw [hI, Finset.prod_singleton]
  norm_num

/-- C2 (amended): `pv_remaining` at row `t` of an `n`-row frame equals the
amount multiplied by the cumulative product of `(1 + r_real)` over all index
rows strictly after `t` through maturity — the maturity-row factor included,
not replaced by 1 — and `pv_remaining` at the maturity row equals the
amount. -/
theorem C2_pv_forward_product (amount inflation_rate discount_rate : ℝ) (n t : ℕ)
    (ht : t < n) :
    liability_pv amount inflation_rate discount_rate n t =
      pv_spec_amended amount inflation_rate discount_rate n t ∧
    liability_pv amount inflation_rate discount_rate n (n - 1) = amount := by
  constructor
  · unfold liability_pv pv_spec_amended liability_horizon
    rw [Finset.prod_const, Nat.card_Ico, show n - 1 - t = n - (t + 1) from by omega]
  · unfold liability_pv liability_horizon
    rw [show n - 1 - (n - 1) = 0 from by omega, pow_zero, mul_one]

/-- C2 witness: the amended product formula evaluated on the concrete
two-row liability used in the counterexample. -/
theorem C2_witness :
    liability_pv 1 4095 0 2 0 = pv_spec_amended 1 4095 0 2 0 ∧
    liability_pv 1 4095 0 2 (2 - 1) = 1 :=
  C2_pv_forward_product 1 4095 0 2 0 (by norm_num)

/-- C3 witness: capital conservation at a concrete input — balance 5 split
over two liabilities of present value 4 each (total PV 8 > 5, so the surplus
bucket starts at 0). -/
theorem C3_witness :
    (([((4, 0, 0), []), ((4, 0, 0), [])] : List ((ℚ × ℚ × ℚ) × List (ℚ × ℚ × ℚ))).map fun f =>
        month0_balance (project_balances_and_surpluses true
          (required_initial 5 (total_pv [((4, 0, 0), []), ((4, 0, 0), [])]) f.1.1)
          (f.1 :: f.2))).sum
      + month0_balance (project_balances_and_surpluses false
          (surplus_initial 5 (total_pv [((4, 0, 0), []), ((4, 0, 0), [])]))
          ((0, 0, 0) :: [])) = 5 :=
  (C3_capital_conservation 5 [((4, 0, 0), []), ((4, 0, 0), [])] (0, 0, 0) []
    (by norm_num) (by intro f hf; fin_cases hf <;> norm_num)
    (by norm_num [total_pv])).1

/-- C4 witness: the amended solver behaviour at a concrete early-stopping
run — constant model map 500, bracket `[0, 100]`, baseline 7. -/
theorem C4_witness :
    MAX_ITERATIONS = 20 ∧ (TOLERANCE : ℚ) = 1000 ∧
    1 ≤ (solverLoop (fun _ => (500 : ℚ)) MAX_ITERATIONS 0 100).2 ∧
    (solverLoop (fun _ => (500 : ℚ)) MAX_ITERATIONS 0 100).2 ≤ MAX_ITERATIONS ∧
    (0 : ℚ) < 500 ∧ (500 : ℚ) ≤ TOLERANCE ∧
    calculateCurrentBalanceAdjustment (fun _ => (500 : ℚ)) 0 100 7 =
      (solverLoop (fun _ => (500 : ℚ)) MAX_ITERATIONS 0 100).1 - 7 ∧
    calculateMonthlyContributionAdjustment (fun _ => (500 : ℚ)) 0 100 7 =
      (solverLoop (fun _ => (500 : ℚ)) MAX_ITERATIONS 0 100).1 - 7 :=
  C4_solver_behaviour (fun _ => (500 : ℚ)) 0 100 7 (by decide)

/-- C5 witness: the ceiling at a concrete input — amount 3 over rows with
`pv_remaining` 1 then 10, zero returns and contributions, at month 0. -/
theorem C5_witness :
    ((project_balances_and_surpluses true (3 : ℚ) [(1, 0, 0), (10, 0, 0)]).getD 0 (0, 0)).1 ≤
      (([(1, 0, 0), (10, 0, 0)] : List (ℚ × ℚ × ℚ)).getD 0 (0, 0, 0)).1 ∧
    ((project_balances_and_surpluses true (3 : ℚ) [(1, 0, 0), (10, 0, 0)]).getD 0 (0, 0)).1 ≤
      (([(1, 0, 0), (10, 0, 0)] : List (ℚ × ℚ × ℚ)).getD 0 (0, 0, 0)).1 + 1 / 1000000000 :=
  C5_required_bucket_ceiling 3 [(1, 0, 0), (10, 0, 0)] 0 (by decide)

/-- C6 witness: the amended recurrence at the same concrete projection. -/
theorem C6_witness :
    ((project_balances_and_surpluses true (3 : ℚ) [(1, 0, 0), (10, 0, 0)]).getD (0 + 1) (0, 0)).1 =
      ((project_balances_and_surpluses true (3 : ℚ) [(1, 0, 0), (10, 0, 0)]).getD 0 (0, 0)).1 *
        (1 + (([(1, 0, 0), (10, 0, 0)] : List (ℚ × ℚ × ℚ)).getD 0 (0, 0, 0)).2.1) +
        (([(1, 0, 0), (10, 0, 0)] : List (ℚ × ℚ × ℚ)).getD 0 (0, 0, 0)).2.2 -
        ((project_balances_and_surpluses true (3 : ℚ) [(1, 0, 0), (10, 0, 0)]).getD (0 + 1) (0, 0)).2 :=
  C6_roll_forward true 3 [(1, 0, 0), (10, 0, 0)] 0 (by decide)

end LDI
